import Mathlib

/-
Verification of the karp-pipeline batch dispatcher and logging layer.

Shallow embedding of `src/karppipeline/cli.py` (the `cli` dispatch loop) and
`src/karppipeline/logging.py` (`setup_resource_logging`, `JsonFormatter`).
External collaborators (resource discovery, `load_config`, the `run`/`install`
operations, `karppipeline.util.terminal`, `karppipeline.common`, the Python
standard library `logging`/`json`/`datetime` machinery) are modelled as
parameters or as small faithful models, each marked in its doc comment.
-/

set_option autoImplicit false

namespace KarpPipeline

/-! ## Python call-binding model

`cli.py` line 142 calls `setup_resource_logging(config_handle.workdir,
args.log_level, compact_output=..., json_output=...)` against the definition
`def setup_resource_logging(path, compact_output=False, json_output=False)`
(`logging.py` line 15).  We model CPython's argument-binding step so that the
well-formedness of that call is a computed fact, not an assumption. -/

/-- Parameter list of a Python function: parameter names in order, and how many
of them (a prefix) have no default value. -/
structure PyParams where
  names : List String
  numRequired : Nat
deriving DecidableEq

/-- Model of CPython argument binding for a call `f(a1, .., an, kw1=.., kwm=..)`
given the callee's parameter list: binds `nPos` positional arguments to the
first parameter names, then checks the keyword names.  Returns a `TypeError`
message when a keyword repeats a positionally bound parameter, names an unknown
parameter, when there are more positional arguments than parameters, or when a
parameter without default stays unbound. -/
def bindCall (ps : PyParams) (nPos : Nat) (kwNames : List String) : Except String Unit :=
  if ps.names.length < nPos then
    Except.error "too many positional arguments"
  else
    let posBound := ps.names.take nPos
    match kwNames.find? (fun k => posBound.contains k) with
    | some k => Except.error ("got multiple values for argument " ++ k)
    | none =>
      match kwNames.find? (fun k => !(ps.names.contains k)) with
      | some k => Except.error ("got an unexpected keyword argument " ++ k)
      | none =>
        let bound := posBound ++ kwNames
        if (ps.names.take ps.numRequired).all (fun k => bound.contains k) then
          Except.ok ()
        else
          Except.error "missing a required argument"

/-- Parameter list of `setup_resource_logging` (`logging.py` line 15):
`path` is required, `compact_output` and `json_output` have defaults. -/
def setupParams : PyParams :=
  { names := ["path", "compact_output", "json_output"], numRequired := 1 }

/-! ## Logging model (`logging.py`)

The Python `logging` library state relevant to this repository: the module
logger `logging.getLogger("karppipeline")` carries a level threshold and a list
of handlers; a handler is a sink plus an optional formatter. -/

/-- Numeric value of a Python logging level name (stdlib `logging` constants). -/
def levelNo : String → Nat
  | "DEBUG" => 10
  | "INFO" => 20
  | "WARNING" => 30
  | "ERROR" => 40
  | "CRITICAL" => 50
  | _ => 0

/-- A handler's output sink: `logging.StreamHandler(stream=sys.stdout)` or
`logging.FileHandler(log_file)`. -/
inductive Sink where
  | stdout
  | file (path : String)
deriving DecidableEq

/-- The formatter attached to a handler: the stdlib default formatter (no
`setFormatter` call was made) or the `JsonFormatter` of `logging.py`. -/
inductive FormatterKind where
  | defaultFmt
  | json
deriving DecidableEq

/-- A logging handler: sink plus formatter. -/
structure Handler where
  sink : Sink
  formatter : FormatterKind
deriving DecidableEq

/-- State of the process-wide `karppipeline` logger: level threshold and
handler list. -/
structure LoggerState where
  level : Nat
  handlers : List Handler
deriving DecidableEq

/-- A log record as produced by a `logger.info` / `logger.error` call:
logger name, level name and number, message, optional exception info
(the rendered traceback carried by `exc_info`), and creation tick. -/
structure LogRecord where
  name : String
  levelName : String
  levelNum : Nat
  msg : String
  excInfo : Option String
  created : Nat
deriving DecidableEq

/-- Builds the record a logging call submits. -/
def mkRecord (name levelName msg : String) (exc : Option String) (now : Nat) : LogRecord :=
  { name := name, levelName := levelName, levelNum := levelNo levelName,
    msg := msg, excInfo := exc, created := now }

/-- Model of `karppipeline.logging.format`: `date.strftime("%Y-%m-%d %H:%M:%S,%f")`.
`strftime` is Python standard library (external to the repository); datetimes are
modelled as abstract ticks and the rendering as an injective encoding of the tick. -/
def format (d : Nat) : String :=
  "ts<" ++ toString d ++ ">"

/-- Model of `karppipeline.common.create_log_dir` (that module is not under
`src/`). Modelled from the spec: "Per-resource run-log file path:
`<workdir>/log/run.log`" — the log directory is `<workdir>/log`, created if
absent. -/
def logDirPath (workdir : String) : String :=
  workdir ++ "/log"

/-- The per-resource run-log file `<workdir>/log/run.log`. -/
def runLogPath (workdir : String) : String :=
  logDirPath workdir ++ "/run.log"

/-- The handler that `setup_resource_logging` installs, as a function of its
(successfully bound) arguments: a `FileHandler` on `<path>/log/run.log` when
`compact_output`, a stdout `StreamHandler` otherwise; `JsonFormatter` is set on
it exactly when `json_output`. -/
def mkSetupHandler (path : String) (compact_output json_output : Bool) : Handler :=
  { sink := if compact_output then Sink.file (runLogPath path) else Sink.stdout,
    formatter := if json_output then FormatterKind.json else FormatterKind.defaultFmt }

/-- Result of `setup_resource_logging`: the new logger state and the lines
appended to the run-log file (as `(file, line)` pairs). -/
structure SetupEffects where
  state : LoggerState
  fileWrites : List (String × String)
deriving DecidableEq

/-- Embedding of `setup_resource_logging(path, compact_output=False,
json_output=False)` (`logging.py` lines 15-52): clears the previous handlers,
sets the level to `"INFO"`, appends a run-boundary header to
`<path>/log/run.log` in compact mode, builds the handler (file or stdout),
attaches `JsonFormatter` when `json_output`, and adds the handler.
`now` is the current datetime tick. -/
def setup_resource_logging (path : String) (compact_output json_output : Bool)
    (now : Nat) (st : LoggerState) : SetupEffects :=
  let cleared : LoggerState := { st with handlers := [] }
  let leveled : LoggerState := { cleared with level := levelNo "INFO" }
  let writes : List (String × String) :=
    if compact_output then
      [(runLogPath path, "-------------------------------"),
       (runLogPath path, "pipeline run, " ++ format now)]
    else
      []
  let handler := mkSetupHandler path compact_output json_output
  { state := { leveled with handlers := leveled.handlers ++ [handler] },
    fileWrites := writes }

/-! ## Formatters -/

/-- Model of the stdlib default `logging.Formatter` rendering (format string
`"%(message)s"`, external to the repository): the record's message, with the
rendered exception appended on a new line when the record carries one.  This is
what a handler uses when `setFormatter` was never called on it, which is the
case in `logging.py` whenever `json_output` is false. -/
def defaultFormat (r : LogRecord) : String :=
  match r.excInfo with
  | none => r.msg
  | some tb => r.msg ++ "\n" ++ tb

/-- Lower-case hexadecimal digits. -/
def hexDigits : List Char :=
  "0123456789abcdef".data

/-- The hexadecimal digit of a value (taken mod 16). -/
def hexDigit (n : Nat) : Char :=
  hexDigits.getD (n % 16) '0'

/-- The body of a `\u00XX` escape for a control character with code `n`. -/
def controlEscape (n : Nat) : List Char :=
  ['u', '0', '0', hexDigit (n / 16), hexDigit (n % 16)]

/-- Model of `json.dumps` string escaping (Python standard library, external to
the repository): escapes the quote, backslash, the common control characters by
short escapes and the remaining control characters as `\u00XX`. -/
def escapeChar (c : Char) : List Char :=
  if c = '"' then ['\\', '"']
  else if c = '\\' then ['\\', '\\']
  else if c = '\n' then ['\\', 'n']
  else if c = '\t' then ['\\', 't']
  else if c = '\r' then ['\\', 'r']
  else if c.toNat < 32 then '\\' :: controlEscape c.toNat
  else [c]

/-- Escapes every character of a list. -/
def escapeList : List Char → List Char
  | [] => []
  | c :: cs => escapeChar c ++ escapeList cs

/-- A JSON string literal: quote, escaped contents, quote. -/
def jsonString (s : String) : String :=
  String.mk ('"' :: (escapeList s.data ++ ['"']))

/-- One `"key": "value"` field of a serialized JSON object. -/
def fieldChars (kv : String × String) : List Char :=
  (jsonString kv.1).data ++ [':', ' '] ++ (jsonString kv.2).data

/-- The comma-separated fields of a serialized JSON object. -/
def sepFields : List (String × String) → List Char
  | [] => []
  | [kv] => fieldChars kv
  | kv :: rest => fieldChars kv ++ [',', ' '] ++ sepFields rest

/-- Model of `json.dumps` on a flat string-valued object (Python standard
library, external to the repository), with the default separators. -/
def jsonDumps (pairs : List (String × String)) : String :=
  String.mk (Char.ofNat 123 :: (sepFields pairs ++ [Char.ofNat 125]))

/-- Embedding of `JsonFormatter.format`'s payload (`logging.py` lines 38-47):
always `timestamp`, `level`, `logger`, `message`; the `exc_info` key is added
only when the record carries exception info (`if record.exc_info`). -/
def jsonPayload (r : LogRecord) : List (String × String) :=
  [("timestamp", format r.created),
   ("level", r.levelName),
   ("logger", r.name),
   ("message", r.msg)]
  ++ (match r.excInfo with
      | some tb => [("exc_info", tb)]
      | none => [])

/-- Rendering of a record by a handler's formatter. -/
def render : FormatterKind → LogRecord → String
  | FormatterKind.defaultFmt, r => defaultFormat r
  | FormatterKind.json, r => jsonDumps (jsonPayload r)

/-- Model of record dispatch by the stdlib `logging` machinery (external to the
repository): a record below the logger's level threshold is dropped before any
formatting; otherwise every handler formats it and writes one line to its sink. -/
def routeRecord (st : LoggerState) (r : LogRecord) : List (Sink × String) :=
  if st.level ≤ r.levelNum then
    st.handlers.map (fun h => (h.sink, render h.formatter r))
  else
    []

/-! ## CLI dispatch model (`cli.py`)

`find_configs`, `load_config`, `run` and `install` live in modules that are
external collaborators (`karppipeline.config`, `karppipeline.run`,
`karppipeline.install`); their behaviour is a parameter (`Env`) of the model. -/

/-- A discovered resource handle (`ConfigHandle`): exposes a working directory. -/
structure ConfigHandle where
  workdir : String
deriving DecidableEq

/-- A loaded configuration: exposes a resource identifier. -/
structure LoadedConfig where
  resource_id : String
deriving DecidableEq

/-- The Python exceptions relevant to the dispatch loop: the two domain
exceptions of `karppipeline.common`, `TypeError`, and any other `Exception`
(carrying its renderable traceback). -/
inductive PyExn where
  | installException (msg : String)
  | importException (msg : String)
  | typeError (msg : String)
  | otherException (trace : String)
deriving DecidableEq

/-- Embedding of the classification test at `cli.py` line 166:
`isinstance(e, InstallException) or isinstance(e, ImportException)`. -/
def isDomainFailure : PyExn → Bool
  | PyExn.installException _ => true
  | PyExn.importException _ => true
  | _ => false

/-- The carried message `e.args[0]` of an exception. -/
def excMessage : PyExn → String
  | PyExn.installException m => m
  | PyExn.importException m => m
  | PyExn.typeError m => m
  | PyExn.otherException t => t

/-- Model of traceback rendering for `exc_info=True` (stdlib `logging` /
`traceback`, external to the repository): the rendered trace of the exception. -/
def excTraceback : PyExn → String
  | PyExn.installException m => "InstallException: " ++ m
  | PyExn.importException m => "ImportException: " ++ m
  | PyExn.typeError m => "TypeError: " ++ m
  | PyExn.otherException t => t

/-- Behaviour of the external collaborators for one invocation:
`load_config`, `run` and `install`. -/
structure Env where
  load_config : ConfigHandle → Except PyExn LoadedConfig
  runOp : LoadedConfig → Option (List String) → Except PyExn Unit
  installOp : LoadedConfig → Option (List String) → Except PyExn Unit

/-- The two dispatched commands of the loop (`args.command`, after the `clean`
early return). -/
inductive Op where
  | run
  | install
deriving DecidableEq

/-- Model of `karppipeline.util.terminal.green_box` (module not under `src/`).
Modelled from the spec: a "visually distinct success glyph", `✓` in the spec's
example output. -/
def green_box : String := "✓"

/-- Model of `karppipeline.util.terminal.red_box` (module not under `src/`).
Modelled from the spec: a "visually distinct fail glyph", `✗` in the spec's
example output. -/
def red_box : String := "✗"

/-- The values of `args.compact_output` set by argparse (`cli.py` lines 55-71):
`"no_compact"`, `"compact"` or the default `"default"`. -/
inductive CompactFlag where
  | default
  | compact
  | no_compact
deriving DecidableEq

/-- Embedding of the output-mode resolution (`cli.py` lines 135-140), performed
once before the dispatch loop:
`compact_output = False; if default: compact = len(configs) > 1
else: compact = (args.compact_output == "compact")`. -/
def resolveCompactOutput (flag : CompactFlag) (numConfigs : Nat) : Bool :=
  if flag = CompactFlag.default then decide (1 < numConfigs)
  else decide (flag = CompactFlag.compact)

/-- Embedding of `"Running " if do_run else "Installing "` (`cli.py` lines
150-155; the `"Unknown action"` else-branch is unreachable for the two
dispatched commands). -/
def taskOutput : Op → String
  | Op.run => "Running "
  | Op.install => "Installing "

/-- Dispatch of the requested operation (`cli.py` lines 158-161):
`if do_install: install(config, **kwargs) elif do_run: run(config, **kwargs)`. -/
def invokeOp (env : Env) (op : Op) (config : LoadedConfig)
    (subcommand : Option (List String)) : Except PyExn Unit :=
  match op with
  | Op.install => env.installOp config subcommand
  | Op.run => env.runOp config subcommand

/-- Observable effects of one iteration's `try` block: whether `load_config`
was called, the log records submitted, the lines printed to the primary output,
and whether the iteration ended in success. -/
structure StepResult where
  loadAttempted : Bool
  records : List LogRecord
  printed : List String
  success : Bool
deriving DecidableEq

/-- The ERROR record submitted by the `except Exception` clause (`cli.py` lines
165-171): for a domain failure, `"Exception for resource: " + e.args[0]` with
no trace; otherwise `"Exception for resource"` with `exc_info=True`. -/
def errorRecord (e : PyExn) (now : Nat) : LogRecord :=
  if isDomainFailure e then
    mkRecord "karppipeline" "ERROR" ("Exception for resource: " ++ excMessage e) none now
  else
    mkRecord "karppipeline" "ERROR" "Exception for resource" (some (excTraceback e)) now

/-- Embedding of the `except Exception` clause (`cli.py` lines 165-171):
domain failures are logged on the `"karppipeline"` logger at ERROR with
`"Exception for resource: " + e.args[0]` and no trace; any other exception at
ERROR with message `"Exception for resource"` and `exc_info=True`; in compact
mode a fail status line naming `config_handle.workdir` is printed. -/
def exceptClause (e : PyExn) (compact : Bool) (h : ConfigHandle) (now : Nat) :
    List LogRecord × List String :=
  ([errorRecord e now],
   if compact then [red_box ++ " " ++ h.workdir ++ "\t fail"] else [])

/-- Embedding of the per-resource `try`/`except` body (`cli.py` lines 146-171):
load the configuration, in verbose mode log the informational line, invoke the
operation, print the compact success line on success; any `Exception` raised by
the load or the operation is handled by `exceptClause` and never re-raised. -/
def tryBody (env : Env) (op : Op) (subcommand : Option (List String))
    (compact : Bool) (h : ConfigHandle) (now : Nat) : StepResult :=
  match env.load_config h with
  | Except.error e =>
    let (recs, outs) := exceptClause e compact h now
    { loadAttempted := true, records := recs, printed := outs, success := false }
  | Except.ok config =>
    let infoRecs :=
      if compact then []
      else [mkRecord "karppipeline.cli" "INFO" (taskOutput op ++ config.resource_id) none now]
    match invokeOp env op config subcommand with
    | Except.error e =>
      let (recs, outs) := exceptClause e compact h now
      { loadAttempted := true, records := infoRecs ++ recs, printed := outs, success := false }
    | Except.ok _ =>
      { loadAttempted := true, records := infoRecs,
        printed :=
          if compact then [green_box ++ " " ++ config.resource_id ++ "\t success"]
          else [],
        success := true }

/-- Embedding of one iteration of the dispatch loop (`cli.py` lines 141-171).
The iteration first evaluates the call
`setup_resource_logging(config_handle.workdir, args.log_level,
compact_output=compact_output, json_output=args.json_output)`; its argument
binding is checked by `bindCall` against `setupParams`, and a binding failure
raises `TypeError` **outside** the `try` block, which the iteration propagates. -/
def cliStep (env : Env) (op : Op) (subcommand : Option (List String))
    (logLevel : String) (compact json : Bool) (now : Nat)
    (st : LoggerState) (h : ConfigHandle) :
    Except PyExn (LoggerState × StepResult × List (String × String)) :=
  match bindCall setupParams [h.workdir, logLevel].length ["compact_output", "json_output"] with
  | Except.error m => Except.error (PyExn.typeError ("setup_resource_logging() " ++ m))
  | Except.ok _ =>
    let eff := setup_resource_logging h.workdir compact json now st
    Except.ok (eff.state, tryBody env op subcommand compact h now, eff.fileWrites)

/-- Accumulated observable effects of a `cli` invocation. -/
structure Trace where
  resolvedCompact : Option Bool
  loadAttempts : Nat
  records : List LogRecord
  printed : List String
  fileWrites : List (String × String)
  outcomes : List Bool
deriving DecidableEq

/-- The trace at the start of an invocation. -/
def emptyTrace : Trace :=
  { resolvedCompact := none, loadAttempts := 0, records := [],
    printed := [], fileWrites := [], outcomes := [] }

/-- The dispatch loop `for config_handle in configs:` (`cli.py` lines 141-171):
runs `cliStep` on each handle in order, accumulating effects; an exception
raised by a step escapes the loop at that point. -/
def cliLoop (env : Env) (op : Op) (subcommand : Option (List String))
    (logLevel : String) (compact json : Bool) (now : Nat) :
    List ConfigHandle → LoggerState → Trace → Trace × Option PyExn
  | [], _, tr => (tr, none)
  | h :: rest, st, tr =>
    match cliStep env op subcommand logLevel compact json now st h with
    | Except.error e => (tr, some e)
    | Except.ok (st2, res, fw) =>
      cliLoop env op subcommand logLevel compact json now rest st2
        { tr with
          loadAttempts := tr.loadAttempts + (if res.loadAttempted then 1 else 0),
          records := tr.records ++ res.records,
          printed := tr.printed ++ res.printed,
          fileWrites := tr.fileWrites ++ fw,
          outcomes := tr.outcomes ++ [res.success] }

deriving instance DecidableEq for Except

/-- The outcome of a `cli` invocation: the accumulated trace and either the
returned exit code or the escaped exception. -/
structure CliResult where
  trace : Trace
  result : Except PyExn Nat
deriving DecidableEq

/-- Embedding of `cli()` for the `run`/`install` commands (`cli.py` lines
128-173): builds `kwargs` from the positional modules, resolves
`compact_output` once from the flag and the number of discovered resources,
runs the dispatch loop, and returns exit code 0 when the loop completes. -/
def cli (env : Env) (op : Op) (modules : List String) (flag : CompactFlag)
    (jsonOutput : Bool) (logLevel : String) (now : Nat)
    (configs : List ConfigHandle) (st : LoggerState) : CliResult :=
  let subcommand := if modules.length > 0 then some modules else none
  let compact := resolveCompactOutput flag configs.length
  let tr0 := { emptyTrace with resolvedCompact := some compact }
  match cliLoop env op subcommand logLevel compact jsonOutput now configs st tr0 with
  | (tr, none) => { trace := tr, result := Except.ok 0 }
  | (tr, some e) => { trace := tr, result := Except.error e }

/-! ## Spec-side definitions (for refinement comparisons)

These two definitions follow the spec's words, not the source; they exist only
to be compared against the source-derived definitions above. -/

/-- The status-line shape claimed by the spec (§4.4):
`"<marker> <resource_id>\t<success|fail>"`. -/
def specStatusLine (marker resourceId status : String) : String :=
  marker ++ " " ++ resourceId ++ "\t" ++ status

/-- The text-mode record rendering claimed by the spec (§4.1):
`<timestamp> <level> <message>`. -/
def specTextLine (r : LogRecord) : String :=
  format r.created ++ " " ++ r.levelName ++ " " ++ r.msg

/-! ## Concrete instances used by witnesses and counterexamples -/

/-- An environment in which every load and every operation succeeds; the
resource identifier of a loaded config is derived from the working directory. -/
def envAllOk : Env :=
  { load_config := fun h => Except.ok { resource_id := "id:" ++ h.workdir },
    runOp := fun _ _ => Except.ok (),
    installOp := fun _ _ => Except.ok () }

/-- An environment in which every load succeeds with resource id `"res_a"` and
`install` raises the domain failure `InstallException("target missing")`. -/
def envDomainFail : Env :=
  { load_config := fun _ => Except.ok { resource_id := "res_a" },
    runOp := fun _ _ => Except.ok (),
    installOp := fun _ _ => Except.error (PyExn.installException "target missing") }

/-- An environment in which loading the resource at `/data/a` raises an
unexpected exception and every other load and operation succeeds. -/
def envFirstLoadFails : Env :=
  { load_config := fun h =>
      if h.workdir = "/data/a" then Except.error (PyExn.otherException "boom")
      else Except.ok { resource_id := "id:" ++ h.workdir },
    runOp := fun _ _ => Except.ok (),
    installOp := fun _ _ => Except.ok () }

/-- A logger state before any `setup_resource_logging` call. -/
def initialLogger : LoggerState :=
  { level := 0, handlers := [] }

/-! ## Helper lemmas -/

theorem hexDigit_ne_newline (n : Nat) : hexDigit n ≠ '\n' := by
  have h : ∀ m, m < 16 → hexDigits.getD m '0' ≠ '\n' := by decide
  exact h (n % 16) (Nat.mod_lt _ (by norm_num))

theorem newline_not_mem_escapeChar (c : Char) : '\n' ∉ escapeChar c := by
  unfold escapeChar
  split_ifs with h1 h2 h3 h4 h5 h6
  · decide
  · decide
  · decide
  · decide
  · decide
  · intro hmem
    simp only [controlEscape, List.mem_cons, List.not_mem_nil, or_false] at hmem
    rcases hmem with h | h | h | h | h | h
    · exact absurd h (by decide)
    · exact absurd h (by decide)
    · exact absurd h (by decide)
    · exact absurd h (by decide)
    · exact hexDigit_ne_newline _ h.symm
    · exact hexDigit_ne_newline _ h.symm
  · intro hmem
    simp only [List.mem_singleton] at hmem
    exact h3 hmem.symm

theorem newline_not_mem_escapeList (l : List Char) : '\n' ∉ escapeList l := by
  induction l with
  | nil => simp [escapeList]
  | cons c cs ih =>
    simp only [escapeList, List.mem_append]
    rintro (h | h)
    · exact newline_not_mem_escapeChar c h
    · exact ih h

theorem newline_not_mem_jsonString (s : String) : '\n' ∉ (jsonString s).data := by
  show '\n' ∉ '"' :: (escapeList s.data ++ ['"'])
  simp only [List.mem_cons, List.mem_append, List.mem_singleton]
  rintro (h | h | h)
  · exact absurd h (by decide)
  · exact newline_not_mem_escapeList _ h
  · exact absurd h (by decide)

theorem newline_not_mem_fieldChars (kv : String × String) : '\n' ∉ fieldChars kv := by
  intro hmem
  rcases List.mem_append.mp hmem with h | h
  · rcases List.mem_append.mp h with h2 | h2
    · exact newline_not_mem_jsonString _ h2
    · exact absurd h2 (by decide)
  · exact newline_not_mem_jsonString _ h

theorem newline_not_mem_sepFields (pairs : List (String × String)) :
    '\n' ∉ sepFields pairs := by
  induction pairs with
  | nil => simp [sepFields]
  | cons kv rest ih =>
    cases rest with
    | nil => simpa [sepFields] using newline_not_mem_fieldChars kv
    | cons k2 r2 =>
      show '\n' ∉ (fieldChars kv ++ [',', ' ']) ++ sepFields (k2 :: r2)
      intro hmem
      rcases List.mem_append.mp hmem with h | h
      · rcases List.mem_append.mp h with h2 | h2
        · exact newline_not_mem_fieldChars kv h2
        · exact absurd h2 (by decide)
      · exact ih h

theorem newline_not_mem_jsonDumps (pairs : List (String × String)) :
    '\n' ∉ (jsonDumps pairs).data := by
  show '\n' ∉ Char.ofNat 123 :: (sepFields pairs ++ [Char.ofNat 125])
  intro hmem
  rcases List.mem_cons.mp hmem with h | h
  · exact absurd h (by decide)
  · rcases List.mem_append.mp h with h2 | h2
    · exact newline_not_mem_sepFields pairs h2
    · exact absurd h2 (by decide)

theorem errorRecord_spec (e : PyExn) (now : Nat) :
    (errorRecord e now).levelName = "ERROR" ∧
    (isDomainFailure e = true →
      (errorRecord e now).msg = "Exception for resource: " ++ excMessage e ∧
      (errorRecord e now).excInfo = none) ∧
    (isDomainFailure e = false →
      (errorRecord e now).msg = "Exception for resource" ∧
      (errorRecord e now).excInfo = some (excTraceback e)) := by
  cases hd : isDomainFailure e <;> simp [errorRecord, mkRecord, hd]

/-! ## Claim theorems -/

/-- C2: when neither `--compact` nor `--no-compact` is given, the effective
output mode is compact exactly when more than one resource was discovered
(one resource resolves to verbose); an explicit flag overrides the default;
and the resolution is performed once, before any resource is processed — for
every environment the invocation's resolved mode is the pure function of the
flag and the discovered-resource count. -/
theorem output_mode_resolution (n : Nat) (flag : CompactFlag) :
    resolveCompactOutput CompactFlag.default n = decide (1 < n) ∧
    resolveCompactOutput CompactFlag.compact n = true ∧
    resolveCompactOutput CompactFlag.no_compact n = false ∧
    ∀ (env : Env) (op : Op) (modules : List String) (json : Bool) (lvl : String)
      (now : Nat) (configs : List ConfigHandle) (st : LoggerState),
      (cli env op modules flag json lvl now configs st).trace.resolvedCompact =
        some (resolveCompactOutput flag configs.length) := by
  refine ⟨rfl, rfl, rfl, ?_⟩
  intro env op modules json lvl now configs st
  cases configs with
  | nil => rfl
  | cons h rest => rfl

/-- C10: the dispatcher's per-resource call `setup_resource_logging(workdir,
args.log_level, compact_output=..., json_output=...)` passes the log level as
an extra positional argument that the parameter list
`(path, compact_output, json_output)` cannot accept — it collides with the
`compact_output` keyword, a `TypeError` — and the call sits outside the
per-resource `try` handler, so the `TypeError` escapes the dispatch loop of any
non-empty batch before any resource is loaded or executed. -/
theorem setup_call_typeerror_escapes_loop :
    bindCall setupParams 2 ["compact_output", "json_output"] =
      Except.error "got multiple values for argument compact_output" ∧
    ∀ (env : Env) (op : Op) (modules : List String) (flag : CompactFlag)
      (json : Bool) (lvl : String) (now : Nat) (configs : List ConfigHandle)
      (st : LoggerState),
      configs ≠ [] →
      (cli env op modules flag json lvl now configs st).result =
        Except.error (PyExn.typeError
          "setup_resource_logging() got multiple values for argument compact_output") ∧
      (cli env op modules flag json lvl now configs st).trace.loadAttempts = 0 ∧
      (cli env op modules flag json lvl now configs st).trace.outcomes = [] := by
  refine ⟨rfl, ?_⟩
  intro env op modules flag json lvl now configs st hne
  cases configs with
  | nil => exact absurd rfl hne
  | cons h rest => exact ⟨rfl, rfl, rfl⟩

/-- C10 witness: a concrete one-resource `run` invocation on which the
dispatch loop raises the `TypeError`. -/
theorem setup_call_typeerror_escapes_loop_witness :
    ([{ workdir := "/data/a" }] : List ConfigHandle) ≠ [] ∧
    (cli envAllOk Op.run [] CompactFlag.default false "INFO" 0
        [{ workdir := "/data/a" }] initialLogger).result =
      Except.error (PyExn.typeError
        "setup_resource_logging() got multiple values for argument compact_output") :=
  ⟨by decide,
   (setup_call_typeerror_escapes_loop.2 envAllOk Op.run [] CompactFlag.default
      false "INFO" 0 [{ workdir := "/data/a" }] initialLogger (by decide)).1⟩

/-- C1 (failing-input evaluation): in a two-resource `run` batch where the
first resource's configuration load would fail and the second would succeed,
the dispatch loop raises `TypeError` at the logging-setup call of the first
resource: no resource is attempted, no outcome is reported — instead of the
claimed one failure and `N-1` successes. -/
theorem batch_aborted_before_first_resource :
    (cli envFirstLoadFails Op.run [] CompactFlag.default false "INFO" 0
        [{ workdir := "/data/a" }, { workdir := "/data/b" }] initialLogger).result =
      Except.error (PyExn.typeError
        "setup_resource_logging() got multiple values for argument compact_output") ∧
    (cli envFirstLoadFails Op.run [] CompactFlag.default false "INFO" 0
        [{ workdir := "/data/a" }, { workdir := "/data/b" }] initialLogger).trace.outcomes =
      [] ∧
    (cli envFirstLoadFails Op.run [] CompactFlag.default false "INFO" 0
        [{ workdir := "/data/a" }, { workdir := "/data/b" }] initialLogger).trace.loadAttempts =
      0 :=
  ⟨rfl, rfl, rfl⟩

/-- C4 (failing-input evaluation): an `install` invocation over a single
resource whose load and operation would both succeed does not return exit code
0 — the `TypeError` raised at the logging-setup call escapes `cli` instead, so
the dispatcher never reaches its unconditional `return 0`. -/
theorem exit_code_not_zero :
    (cli envAllOk Op.install [] CompactFlag.default false "INFO" 0
        [{ workdir := "/data/a" }] initialLogger).result =
      Except.error (PyExn.typeError
        "setup_resource_logging() got multiple values for argument compact_output") ∧
    (cli envAllOk Op.install [] CompactFlag.default false "INFO" 0
        [{ workdir := "/data/a" }] initialLogger).result ≠ Except.ok 0 := by
  refine ⟨rfl, ?_⟩
  intro hcontra
  rw [(rfl :
    (cli envAllOk Op.install [] CompactFlag.default false "INFO" 0
        [{ workdir := "/data/a" }] initialLogger).result =
      Except.error (PyExn.typeError
        "setup_resource_logging() got multiple values for argument compact_output"))]
    at hcontra
  exact Except.noConfusion hcontra

/-- C3: every failure raised during a resource's configuration load or during
the invoked operation is caught and classified: a recognized domain failure
(`InstallException`/`ImportException`) is logged at ERROR severity with its
carried message (prefixed `"Exception for resource: "`) and no trace; any other
failure is logged at ERROR severity with the rendered traceback attached; and
in both cases the resource's outcome is failure — the classification never
suppresses the failure outcome. -/
theorem failure_classification (env : Env) (op : Op) (sub : Option (List String))
    (compact : Bool) (h : ConfigHandle) (now : Nat) (e : PyExn)
    (hfail : env.load_config h = Except.error e ∨
      ∃ config, env.load_config h = Except.ok config ∧
        invokeOp env op config sub = Except.error e) :
    (tryBody env op sub compact h now).success = false ∧
    ∃ r ∈ (tryBody env op sub compact h now).records,
      r.levelName = "ERROR" ∧
      (isDomainFailure e = true →
        r.msg = "Exception for resource: " ++ excMessage e ∧ r.excInfo = none) ∧
      (isDomainFailure e = false →
        r.msg = "Exception for resource" ∧ r.excInfo = some (excTraceback e)) := by
  rcases hfail with hl | ⟨config, hl, hop⟩
  · refine ⟨by simp [tryBody, hl, exceptClause], errorRecord e now, ?_, errorRecord_spec e now⟩
    simp [tryBody, hl, exceptClause]
  · refine ⟨by simp [tryBody, hl, hop, exceptClause], errorRecord e now, ?_,
      errorRecord_spec e now⟩
    simp [tryBody, hl, hop, exceptClause]

/-- C3 witness: a concrete resource whose `install` raises the domain failure
`InstallException("target missing")`. -/
theorem failure_classification_witness :
    (tryBody envDomainFail Op.install none true { workdir := "/d" } 0).success = false ∧
    ∃ r ∈ (tryBody envDomainFail Op.install none true { workdir := "/d" } 0).records,
      r.levelName = "ERROR" ∧
      (isDomainFailure (PyExn.installException "target missing") = true →
        r.msg = "Exception for resource: " ++
          excMessage (PyExn.installException "target missing") ∧ r.excInfo = none) ∧
      (isDomainFailure (PyExn.installException "target missing") = false →
        r.msg = "Exception for resource" ∧
        r.excInfo = some (excTraceback (PyExn.installException "target missing"))) :=
  failure_classification envDomainFail Op.install none true { workdir := "/d" } 0
    (PyExn.installException "target missing")
    (Or.inr ⟨{ resource_id := "res_a" }, rfl, rfl⟩)

/-- C5: reconfiguring the Log Router is idempotent within one invocation: the
second of two successive `setup_resource_logging` calls first clears every
handler installed by the first and then installs exactly one handler of its
own, so after the second call the handler count is exactly one, the resulting
state is independent of the first call, and records at or above the threshold
are routed only to the second-configured sink. -/
theorem setup_idempotent (st : LoggerState) (p1 p2 : String) (c1 c2 j1 j2 : Bool)
    (t1 t2 : Nat) :
    ((setup_resource_logging p2 c2 j2 t2
        (setup_resource_logging p1 c1 j1 t1 st).state).state).handlers =
      [mkSetupHandler p2 c2 j2] ∧
    ((setup_resource_logging p2 c2 j2 t2
        (setup_resource_logging p1 c1 j1 t1 st).state).state).handlers.length = 1 ∧
    (setup_resource_logging p2 c2 j2 t2
        (setup_resource_logging p1 c1 j1 t1 st).state).state =
      (setup_resource_logging p2 c2 j2 t2 st).state ∧
    ∀ r : LogRecord,
      routeRecord (setup_resource_logging p2 c2 j2 t2
          (setup_resource_logging p1 c1 j1 t1 st).state).state r =
        if levelNo "INFO" ≤ r.levelNum then
          [((mkSetupHandler p2 c2 j2).sink, render (mkSetupHandler p2 c2 j2).formatter r)]
        else [] := by
  exact ⟨rfl, rfl, rfl, fun r => rfl⟩

/-- C6 (failing-input evaluation): `setup_resource_logging` has no severity
parameter at all — its parameter list is `(path, compact_output, json_output)`
— and hardcodes `logger.setLevel("INFO")`, so the per-invocation chosen level
is never applied: after any reconfiguration the threshold is the INFO constant
and a DEBUG record is dropped even when the user chose `--log-level DEBUG`. -/
theorem level_hardcoded_to_info (p : String) (c j : Bool) (t : Nat)
    (st : LoggerState) :
    (setup_resource_logging p c j t st).state.level = levelNo "INFO" ∧
    levelNo "DEBUG" < levelNo "INFO" ∧
    setupParams.names = ["path", "compact_output", "json_output"] ∧
    routeRecord (setup_resource_logging p c j t st).state
        (mkRecord "karppipeline" "DEBUG" "a debug message" none t) = [] :=
  ⟨rfl, by decide, rfl, rfl⟩

/-- C7 (counterexample): for a resource whose configuration loads with resource
id `"res_a"` from working directory `"/data/a"` and whose `install` raises a
domain failure, the compact fail line printed is `"✗ /data/a\t fail"`: it names
the working directory, not the resource identifier, and puts a space between
the tab and the status — so it differs from the claimed shape
`"<marker> <resource_id>\t<fail>"` under either identifier choice. -/
theorem compact_fail_line_counterexample :
    (tryBody envDomainFail Op.install none true { workdir := "/data/a" } 0).printed =
      [red_box ++ " " ++ "/data/a" ++ "\t fail"] ∧
    (tryBody envDomainFail Op.install none true { workdir := "/data/a" } 0).printed ≠
      [specStatusLine red_box "res_a" "fail"] ∧
    (tryBody envDomainFail Op.install none true { workdir := "/data/a" } 0).printed ≠
      [specStatusLine red_box "/data/a" "fail"] :=
  ⟨rfl, by decide, by decide⟩

/-- C7 (amended): in compact mode each processed resource yields exactly one
status line, emitted immediately after its outcome is known: on success
`"<green glyph> <resource_id>\t success"`, on failure
`"<red glyph> <workdir>\t fail"` — the failed resource is identified by its
working directory, and a space separates the tab from the status word. -/
theorem compact_status_lines (env : Env) (op : Op) (sub : Option (List String))
    (h : ConfigHandle) (now : Nat) :
    (tryBody env op sub true h now).printed.length = 1 ∧
    (∀ config, env.load_config h = Except.ok config →
      invokeOp env op config sub = Except.ok () →
      (tryBody env op sub true h now).printed =
        [green_box ++ " " ++ config.resource_id ++ "\t success"]) ∧
    ((tryBody env op sub true h now).success = false →
      (tryBody env op sub true h now).printed =
        [red_box ++ " " ++ h.workdir ++ "\t fail"]) := by
  cases hl : env.load_config h with
  | error e =>
    refine ⟨by simp [tryBody, hl, exceptClause], ?_, by simp [tryBody, hl, exceptClause]⟩
    intro config hok
    exact absurd hok (by simp)
  | ok config =>
    cases hop : invokeOp env op config sub with
    | error e =>
      refine ⟨by simp [tryBody, hl, hop, exceptClause], ?_,
        by simp [tryBody, hl, hop, exceptClause]⟩
      intro config2 hok hopok
      injection hok with hc
      subst hc
      rw [hop] at hopok
      exact absurd hopok (by simp)
    | ok u =>
      refine ⟨by simp [tryBody, hl, hop], ?_, ?_⟩
      · intro config2 hok hopok
        injection hok with hc
        subst hc
        simp [tryBody, hl, hop]
      · intro hsucc
        simp [tryBody, hl, hop] at hsucc

/-- C7 witness: a concrete compact-mode success prints the success status line
with the resource identifier. -/
theorem compact_status_lines_witness :
    (tryBody envAllOk Op.run none true { workdir := "/d" } 0).printed =
      [green_box ++ " " ++ "id:/d" ++ "\t success"] :=
  (compact_status_lines envAllOk Op.run none { workdir := "/d" } 0).2.1
    { resource_id := "id:/d" } rfl rfl

/-- C8: with `json_output` set, the serialized payload of every record always
contains the keys `timestamp`, `level`, `logger` and `message`; the rendered
exception-trace key `exc_info` is present exactly when the record carries
exception info and is omitted — not set to null — otherwise; and every line a
handler emits for a record is the serialization of that one object with no raw
newline, hence independently parseable as one record per line. -/
theorem json_records (p : String) (c : Bool) (t : Nat) (st : LoggerState)
    (r : LogRecord) :
    ((jsonPayload r).map Prod.fst =
      ["timestamp", "level", "logger", "message"] ++
        (if r.excInfo.isSome then ["exc_info"] else [])) ∧
    ("exc_info" ∈ (jsonPayload r).map Prod.fst ↔ r.excInfo ≠ none) ∧
    ∀ out ∈ routeRecord (setup_resource_logging p c true t st).state r,
      out.2 = jsonDumps (jsonPayload r) ∧ '\n' ∉ out.2.data := by
  refine ⟨?_, ?_, ?_⟩
  · cases hx : r.excInfo <;> simp [jsonPayload, hx]
  · cases hx : r.excInfo <;> simp [jsonPayload, hx]
  · intro out hout
    by_cases hlev : levelNo "INFO" ≤ r.levelNum
    · have hmem : out ∈
          [((mkSetupHandler p c true).sink, render FormatterKind.json r)] := by
        simpa [routeRecord, setup_resource_logging, hlev] using hout
      have heq : out = ((mkSetupHandler p c true).sink, render FormatterKind.json r) := by
        simpa using hmem
      rw [heq]
      exact ⟨rfl, newline_not_mem_jsonDumps _⟩
    · simp [routeRecord, setup_resource_logging, hlev] at hout

/-- C8 witness: a concrete INFO record routed through a json-mode handler. -/
theorem json_records_witness :
    (Sink.stdout, jsonDumps (jsonPayload (mkRecord "karppipeline" "INFO" "hello" none 3))).2 =
      jsonDumps (jsonPayload (mkRecord "karppipeline" "INFO" "hello" none 3)) ∧
    '\n' ∉ (Sink.stdout,
      jsonDumps (jsonPayload (mkRecord "karppipeline" "INFO" "hello" none 3))).2.data :=
  (json_records "/w" false 3 initialLogger (mkRecord "karppipeline" "INFO" "hello" none 3)).2.2
    (Sink.stdout, jsonDumps (jsonPayload (mkRecord "karppipeline" "INFO" "hello" none 3)))
    (by decide)

/-- C9 (counterexample): in text mode no formatter is ever installed, so the
line emitted for an INFO record with message `"hello"` is `"hello"` — not the
claimed `<timestamp> <level> <message>` rendering. -/
theorem text_mode_counterexample :
    routeRecord (setup_resource_logging "/w" false false 0 initialLogger).state
        (mkRecord "karppipeline" "INFO" "hello" none 0) =
      [(Sink.stdout, "hello")] ∧
    "hello" ≠ specTextLine (mkRecord "karppipeline" "INFO" "hello" none 0) :=
  ⟨rfl, by decide⟩

/-- C9 (amended): in text (non-JSON) output mode the handler keeps the stdlib
default formatter, so every emitted log record is rendered as its message text
alone — with the rendered exception trace appended after a newline when the
record carries one — not as `<timestamp> <level> <message>`. -/
theorem text_mode_renders_message_only (p : String) (c : Bool) (t : Nat)
    (st : LoggerState) (r : LogRecord) :
    ∀ out ∈ routeRecord (setup_resource_logging p c false t st).state r,
      out.2 = r.msg ++ (match r.excInfo with | none => "" | some tb => "\n" ++ tb) := by
  intro out hout
  by_cases hlev : levelNo "INFO" ≤ r.levelNum
  · have hmem : out ∈
        [((mkSetupHandler p c false).sink, render FormatterKind.defaultFmt r)] := by
      simpa [routeRecord, setup_resource_logging, hlev] using hout
    have heq : out = ((mkSetupHandler p c false).sink, render FormatterKind.defaultFmt r) := by
      simpa using hmem
    rw [heq]
    cases hx : r.excInfo with
    | none => simp [render, defaultFormat, hx]
    | some tb => simp [render, defaultFormat, hx, String.append_assoc]
  · simp [routeRecord, setup_resource_logging, hlev] at hout

/-- C9 witness: a concrete INFO record routed through a text-mode handler. -/
theorem text_mode_renders_message_only_witness :
    ((Sink.stdout, "hello") : Sink × String).2 =
      (mkRecord "karppipeline" "INFO" "hello" none 0).msg ++
        (match (mkRecord "karppipeline" "INFO" "hello" none 0).excInfo with
         | none => ""
         | some tb => "\n" ++ tb) :=
  text_mode_renders_message_only "/w" false 0 initialLogger
    (mkRecord "karppipeline" "INFO" "hello" none 0) (Sink.stdout, "hello") (by decide)

end KarpPipeline
